import Mathlib

/-!
# Verification of the ST3215 servo-reader driver

Shallow embedding of `src/src/perseus-arm-teleop.cpp` (class `ST3215ServoReader`).
Bytes are `Nat` values below 256 (the C++ code stores them in `uint8_t`).
The serial transport is modelled as an oracle: the write phase reports how many
bytes were accepted (and an optional error code), and the read phases consume a
list of bytes the device supplies, in arrival order.  A read phase that cannot
collect enough bytes within its budget corresponds to the code's timeout error.
Timing of the two polling read loops is modelled separately (`readLoop`) with
millisecond-granularity clocks: each zero-byte read advances the clock by 1 ms
(the `sleep_for(1ms)` in the loop body), mirroring lines 65-84 and 111-130.
-/

namespace ST3215

/-- Lower-case hex digit, as produced by `std::hex` (lines 100-101). -/
def hexDigit (n : Nat) : Char :=
  if n < 10 then Char.ofNat (48 + n) else Char.ofNat (87 + n)

/-- Two-digit lower-case hex rendering of a byte, as produced by
`std::hex << std::setw(2) << std::setfill('0')` for a value below 256. -/
def hexByte (b : Nat) : String :=
  String.mk [hexDigit (b / 16 % 16), hexDigit (b % 16)]

/-- The header-error message built in lines 96-103: reason plus the four raw
header bytes rendered in hex, each followed by a space. -/
def headerErrorMsg (reason : String) (h0 h1 h2 h3 : Nat) : String :=
  "Header error (" ++ reason ++ "): " ++
    hexByte h0 ++ " " ++ hexByte h1 ++ " " ++ hexByte h2 ++ " " ++ hexByte h3 ++ " "

/-- Header validation, lines 86-104: marker check, then id check, then length
check; on failure the message carries all four raw header bytes in hex. -/
def validateHeader (servo_id h0 h1 h2 h3 : Nat) : Option String :=
  if h0 ≠ 0xFF ∨ h1 ≠ 0xFF then some (headerErrorMsg "Invalid header markers" h0 h1 h2 h3)
  else if h2 ≠ servo_id then some (headerErrorMsg "Mismatched servo ID" h0 h1 h2 h3)
  else if h3 < 4 then some (headerErrorMsg "Invalid length" h0 h1 h2 h3)
  else none

/-- The servo-fault message built in lines 134-141: the fixed prefix followed by
the name of every set status flag, tested in fixed bit order. -/
def servoFaultMsg (s : Nat) : String :=
  "Servo errors:"
    ++ (if s &&& 0x01 ≠ 0 then " Input Voltage" else "")
    ++ (if s &&& 0x02 ≠ 0 then " Angle Limit" else "")
    ++ (if s &&& 0x04 ≠ 0 then " Overheating" else "")
    ++ (if s &&& 0x08 ≠ 0 then " Range" else "")
    ++ (if s &&& 0x10 ≠ 0 then " Checksum" else "")
    ++ (if s &&& 0x20 ≠ 0 then " Overload" else "")
    ++ (if s &&& 0x40 ≠ 0 then " Instruction" else "")

/-- The spec's flag table: bit mask and flag name, in the spec's fixed order. -/
def flagTable : List (Nat × String) :=
  [(0x01, "Input Voltage"), (0x02, "Angle Limit"), (0x04, "Overheating"),
   (0x08, "Range"), (0x10, "Checksum"), (0x20, "Overload"), (0x40, "Instruction")]

/-- Spec-style rendering of a fault status: the prefix followed by the names of
exactly the set flags, in the fixed order of `flagTable`.  Used to state that
the code's `servoFaultMsg` lists every set flag by name in that order. -/
def servoFaultMsgSpec (s : Nat) : String :=
  "Servo errors:" ++
    String.join (((flagTable.filter fun p => s &&& p.1 ≠ 0).map fun p => " " ++ p.2))

/-- Payload decoding, lines 132-146: byte 0 is the status mask; nonzero status
raises the fault message and no position is extracted; zero status returns
`data[1] | (data[2] << 8)`. -/
def decodePayload (data : List Nat) : Except String Nat :=
  let s := data.getD 0 0
  if s ≠ 0 then .error (servoFaultMsg s)
  else .ok ((data.getD 1 0) ||| ((data.getD 2 0) <<< 8))

/-- `_createReadCommand` (lines 155-176): the 8-byte frame
`[0xFF, 0xFF, id, 0x04, 0x02, address, size, checksum]`, where the checksum is
the `uint8_t` complement of the `uint8_t` sum of bytes 2 through 6. -/
def createReadCommand (id address size : Nat) : List Nat :=
  let command : List Nat := [0xFF, 0xFF, id, 0x04, 0x02, address, size, 0x00]
  let checksum := ((command.drop 2).dropLast).foldl (fun a b => (a + b) % 256) 0
  command.dropLast ++ [255 - checksum]

/-- Modelled from the spec: the response-checksum invariant of §3/§6 — the
ones-complement (low 8 bits) of the sum of a frame's bytes from index 2 (id)
through the byte preceding the checksum.  The code under `src/` never computes
this quantity for responses; this definition exists only to state the claim
that it does. -/
def responseChecksum (frame : List Nat) : Nat :=
  255 - (((frame.drop 2).dropLast).foldl (fun a b => (a + b) % 256) 0)

/-- One `readPosition` attempt's interaction with the serial line:  the result
of the single `boost::asio::write` call (error code and byte count), then the
bytes the device supplies, in arrival order. -/
structure Wire where
  writeEc : Option String
  written : Nat
  resp : List Nat
  deriving DecidableEq

/-- The wrapping applied by the catch-all handler in lines 148-152. -/
def wrapErr (servo_id : Nat) (msg : String) : String :=
  "Error reading servo " ++ toString servo_id ++ ": " ++ msg

/-- Data flow of a bounded read-exact-`n` loop: the first `n` supplied bytes,
plus the remaining stream; `none` when the device supplies fewer than `n`
bytes, which in the code surfaces as the loop's timeout error. -/
def readExactM (n : Nat) (resp : List Nat) : Option (List Nat × List Nat) :=
  if n ≤ resp.length then some (resp.take n, resp.drop n) else none

/-- Body of `readPosition` (lines 41-146), before the catch-all wrapping:
build and send the command, read and validate the 4-byte header, read
`header[3]` payload bytes, decode the payload. -/
def readPositionInner (servo_id : Nat) (w : Wire) : Except String Nat :=
  let command := createReadCommand servo_id 0x38 2
  match w.writeEc with
  | some m => .error ("Write error: " ++ m)
  | none =>
    if w.written ≠ command.length then .error "Failed to write complete command"
    else
      match readExactM 4 w.resp with
      | none => .error "Timeout waiting for header"
      | some (header, rest) =>
        let h0 := header.getD 0 0
        let h1 := header.getD 1 0
        let h2 := header.getD 2 0
        let h3 := header.getD 3 0
        match validateHeader servo_id h0 h1 h2 h3 with
        | some e => .error e
        | none =>
          match readExactM h3 rest with
          | none => .error "Timeout waiting for data"
          | some (data, _) => decodePayload data

/-- `readPosition` (lines 39-153): the body, with every error re-wrapped with
the servo id by the catch-all handler of lines 148-152. -/
def readPositionModel (servo_id : Nat) (w : Wire) : Except String Nat :=
  match readPositionInner servo_id w with
  | .error e => .error (wrapErr servo_id e)
  | .ok v => .ok v

/-- Outcome of one bounded read loop, with the clock value (in ms) at exit.
`fuelOut` marks exhaustion of the step budget of the embedding — it never
arises with enough fuel, which is the loop-termination theorem. -/
inductive LoopResult where
  | ok (timeEnd : Nat)
  | timeout (timeEnd : Nat)
  | fuelOut
  deriving DecidableEq

/-- Whether a `LoopResult` is the fuel-exhaustion marker. -/
def LoopResult.isFuelOut : LoopResult → Bool
  | .fuelOut => true
  | _ => false

/-- Shift the exit timestamp of a `LoopResult` by `s` milliseconds. -/
def timeShift (s : Nat) : LoopResult → LoopResult
  | .ok t => .ok (s + t)
  | .timeout t => .timeout (s + t)
  | .fuelOut => .fuelOut

/-- Timed model of the polling read loops (lines 65-84 and 111-130).
`σ i` is the number of bytes the device makes available at the loop's `i`-th
`read_some` call; the loop takes at most the `n - total` bytes it asked for.
After accumulating, the loop checks `now - start > 100` (the 100 ms budget,
line 62) and fails with a timeout; on a zero-byte read it sleeps 1 ms, which
is the only advance of the clock (reads are modelled as instantaneous). -/
def readLoop (σ : Nat → Nat) (n i total start now fuel : Nat) : LoopResult :=
  match fuel with
  | 0 => .fuelOut
  | fuel + 1 =>
    if n ≤ total then .ok now
    else
      let bytes := min (σ i) (n - total)
      if now - start > 100 then .timeout now
      else if bytes = 0 then readLoop σ n (i + 1) (total + bytes) start (now + 1) fuel
      else readLoop σ n (i + 1) (total + bytes) start now fuel

/-- The two read phases of one `readPosition` attempt on a shared clock:
the header loop starts at time 0; when it succeeds at time `t`, the payload
loop (for `n` payload bytes, with its own arrival schedule `σp`) starts with
`start_time` reset to `t` — the assignment at line 109. -/
def timedRead (σh σp : Nat → Nat) (n fuel : Nat) : LoopResult :=
  match readLoop σh 4 0 0 0 0 fuel with
  | .ok t => readLoop σp n 0 0 t t fuel
  | r => r

/-! ## Helper lemmas -/

/-- Decidable instance so concrete driver outcomes can be settled by `decide`. -/
instance : DecidableEq (Except String Nat) := fun a b =>
  match a, b with
  | .error x, .error y =>
    match decEq x y with
    | isTrue h => isTrue (h ▸ rfl)
    | isFalse h => isFalse fun hc => h (Except.error.inj hc)
  | .ok x, .ok y =>
    match decEq x y with
    | isTrue h => isTrue (h ▸ rfl)
    | isFalse h => isFalse fun hc => h (Except.ok.inj hc)
  | .error _, .ok _ => isFalse fun hc => Except.noConfusion hc
  | .ok _, .error _ => isFalse fun hc => Except.noConfusion hc

set_option maxRecDepth 4096 in
/-- The `uint8_t` bitwise complement is subtraction from 255. -/
theorem not8_eq_xor : ∀ t : Nat, t < 256 → 255 - t = t ^^^ 255 := by decide

/-- Assembling two bytes little-endian: for a low byte below 256, the bitwise
or with the shifted high byte is exact addition, so the 16-bit value is
preserved without loss. -/
theorem byte_lor_shiftLeft (d1 d2 : Nat) (h : d1 < 256) :
    d1 ||| (d2 <<< 8) = d1 + 256 * d2 := by
  have h2 : d1 < 2 ^ 8 := by norm_num; omega
  have e : d2 <<< 8 = 2 ^ 8 * d2 := by rw [Nat.shiftLeft_eq, Nat.mul_comm]
  rw [e, Nat.lor_comm, ← Nat.mul_add_lt_is_or h2]
  norm_num
  omega

/-- A string sandwiched between two others is an infix of the concatenation. -/
theorem str_between (a b c : String) : b.data <:+: (a ++ b ++ c).data :=
  ⟨a.data, c.data, by simp⟩

/-- Every raw header byte appears, hex-rendered, in the header-error message. -/
theorem hex_in_headerErrorMsg (r : String) (h0 h1 h2 h3 : Nat) :
    ∀ b ∈ [h0, h1, h2, h3], (hexByte b).data <:+: (headerErrorMsg r h0 h1 h2 h3).data := by
  intro b hb
  simp only [List.mem_cons, List.not_mem_nil, or_false] at hb
  rcases hb with rfl | rfl | rfl | rfl
  · have e : headerErrorMsg r b h1 h2 h3 =
        ("Header error (" ++ r ++ "): ") ++ hexByte b ++
          (" " ++ hexByte h1 ++ " " ++ hexByte h2 ++ " " ++ hexByte h3 ++ " ") := by
      simp [headerErrorMsg, String.append_assoc]
    rw [e]; exact str_between _ _ _
  · have e : headerErrorMsg r h0 b h2 h3 =
        ("Header error (" ++ r ++ "): " ++ hexByte h0 ++ " ") ++ hexByte b ++
          (" " ++ hexByte h2 ++ " " ++ hexByte h3 ++ " ") := by
      simp [headerErrorMsg, String.append_assoc]
    rw [e]; exact str_between _ _ _
  · have e : headerErrorMsg r h0 h1 b h3 =
        ("Header error (" ++ r ++ "): " ++ hexByte h0 ++ " " ++ hexByte h1 ++ " ") ++
          hexByte b ++ (" " ++ hexByte h3 ++ " ") := by
      simp [headerErrorMsg, String.append_assoc]
    rw [e]; exact str_between _ _ _
  · have e : headerErrorMsg r h0 h1 h2 b =
        ("Header error (" ++ r ++ "): " ++ hexByte h0 ++ " " ++ hexByte h1 ++ " " ++
          hexByte h2 ++ " ") ++ hexByte b ++ " " := by
      simp [headerErrorMsg, String.append_assoc]
    rw [e]; exact str_between _ _ _

/-- The full frame produced by `_createReadCommand`, in closed form. -/
theorem createReadCommand_eq (id address size : Nat) :
    createReadCommand id address size =
      [0xFF, 0xFF, id, 0x04, 0x02, address, size,
        255 - ((id + 0x04 + 0x02 + address + size) % 256)] := by
  unfold createReadCommand
  simp only [List.drop, List.dropLast, List.foldl, List.cons_append, List.nil_append,
    List.cons.injEq, and_true, true_and]
  omega

/-- Fuel adequacy for the polling read loop: each iteration either makes byte
progress (bounded by `n`) or advances the 1 ms sleep clock (bounded by the
100 ms budget check), so `(n - total) + (101 - elapsed)` steps always settle
the loop. -/
theorem readLoop_no_fuel (σ : Nat → Nat) (n : Nat) :
    ∀ fuel i total start now, start ≤ now →
      (n - total) + (101 - (now - start)) < fuel →
      (readLoop σ n i total start now fuel).isFuelOut = false := by
  intro fuel
  induction fuel with
  | zero => intro i total start now _ h; omega
  | succ fuel ih =>
    intro i total start now hs h
    rw [readLoop]
    by_cases h1 : n ≤ total
    · simp [h1, LoopResult.isFuelOut]
    · by_cases h2 : now - start > 100
      · simp [h1, h2, LoopResult.isFuelOut]
      · by_cases h3 : min (σ i) (n - total) = 0
        · simp only [if_neg h1, if_neg h2, if_pos h3]
          exact ih (i + 1) (total + min (σ i) (n - total)) start (now + 1)
            (by omega) (by omega)
        · simp only [if_neg h1, if_neg h2, if_neg h3]
          have hle : min (σ i) (n - total) ≤ n - total := Nat.min_le_right _ _
          exact ih (i + 1) (total + min (σ i) (n - total)) start now hs (by omega)

/-- The polling read loop only ever inspects `now - start`: running it with the
clock origin shifted to `0` gives the same outcome with shifted timestamps.
This is exactly what the reset `start_time = now()` at line 109 grants the
payload phase. -/
theorem readLoop_shift (σ : Nat → Nat) (n : Nat) :
    ∀ fuel i total start e,
      readLoop σ n i total start (start + e) fuel
        = timeShift start (readLoop σ n i total 0 e fuel) := by
  intro fuel
  induction fuel with
  | zero => intro i total start e; rfl
  | succ fuel ih =>
    intro i total start e
    rw [readLoop, readLoop]
    have he : start + e - start = e := by omega
    have he0 : e - 0 = e := by omega
    by_cases h1 : n ≤ total
    · simp [h1, timeShift]
    · by_cases h2 : e > 100
      · simp [h1, he, he0, h2, timeShift]
      · by_cases h3 : min (σ i) (n - total) = 0
        · simp only [if_neg h1, he, he0, if_neg h2, if_pos h3]
          have : start + e + 1 = start + (e + 1) := by omega
          rw [this]
          exact ih (i + 1) (total + min (σ i) (n - total)) start (e + 1)
        · simp only [if_neg h1, he, he0, if_neg h2, if_neg h3]
          exact ih (i + 1) (total + min (σ i) (n - total)) start e

/-! ## Claim theorems -/

/-- Claim C1: the header-read loop of `readPosition` terminates for every
possible sequence of byte arrivals (with the step budget 110 the fuel marker
is never reached), and when the device never supplies a byte it exits with
the timeout error, with the clock at 101 ms — within the bounded wall-clock
window of the 100 ms budget plus one sleep granule. -/
theorem readPosition_header_read_terminates :
    (∀ σ : Nat → Nat, (readLoop σ 4 0 0 0 0 110).isFuelOut = false) ∧
    readLoop (fun _ => 0) 4 0 0 0 0 110 = .timeout 101 := by
  constructor
  · intro σ
    exact readLoop_no_fuel σ 4 110 0 0 0 0 (Nat.le_refl 0) (by omega)
  · decide

/-- Claim C8: within one `readPosition` invocation the payload read's deadline
is measured from the start of the payload phase, not cumulatively: whenever the
header loop succeeds at clock `t`, the whole timed read equals the payload loop
run with a fresh clock at `0` (its own 100 ms budget), merely time-shifted by
`t`. -/
theorem payload_budget_is_fresh (σh σp : Nat → Nat) (n fuel t : Nat)
    (h : readLoop σh 4 0 0 0 0 fuel = .ok t) :
    timedRead σh σp n fuel = timeShift t (readLoop σp n 0 0 0 0 fuel) := by
  unfold timedRead
  rw [h]
  have := readLoop_shift σp n fuel 0 0 t 0
  simpa using this

/-- Arrival schedule that stays silent for 90 polling iterations (90 ms of
sleeps) and then supplies 4 bytes at once. -/
def arrivalAfter90 : Nat → Nat := fun i => if i < 90 then 0 else 4

/-- Witness for C8: with 90 ms spent in the header phase and another 90 ms in
the payload phase, the call still succeeds at total clock 180 ms — the payload
budget was not consumed by the header phase. -/
theorem payload_budget_is_fresh_witness :
    readLoop arrivalAfter90 4 0 0 0 0 300 = .ok 90 ∧
    timedRead arrivalAfter90 arrivalAfter90 4 300 = .ok 180 := by
  refine ⟨by decide, ?_⟩
  rw [payload_budget_is_fresh arrivalAfter90 arrivalAfter90 4 300 90 (by decide)]
  decide

/-- Claim C3: `_createReadCommand(id, address, size)` deterministically returns
exactly the 8-byte frame `[0xFF, 0xFF, id, 0x04, 0x02, address, size,
checksum]`, and for the position read `(id, 0x38, 2)` the checksum byte equals
the bitwise NOT (low 8 bits, here both as `255 - ·` and as `· ^^^ 255`) of
`id + 0x04 + 0x02 + 0x38 + 2` truncated to 8 bits. -/
theorem createReadCommand_spec (id address size : Nat)
    (hid : id < 256) (ha : address < 256) (hs : size < 256) :
    createReadCommand id address size =
      [0xFF, 0xFF, id, 0x04, 0x02, address, size,
        255 - ((id + 0x04 + 0x02 + address + size) % 256)] ∧
    (createReadCommand id 0x38 2).getD 7 0 =
      255 - ((id + 0x04 + 0x02 + 0x38 + 2) % 256) ∧
    255 - ((id + 0x04 + 0x02 + 0x38 + 2) % 256) =
      ((id + 0x04 + 0x02 + 0x38 + 2) % 256) ^^^ 255 := by
  refine ⟨createReadCommand_eq id address size, ?_, ?_⟩
  · rw [createReadCommand_eq id 0x38 2]
    rfl
  · exact not8_eq_xor _ (by omega)

/-- Witness for C3 at `id = 1`: the concrete position-read frame, whose
checksum byte is `255 - 65 = 190 = 0xBE`. -/
theorem createReadCommand_spec_witness :
    createReadCommand 1 0x38 2 =
      [0xFF, 0xFF, 1, 0x04, 0x02, 0x38, 2,
        255 - ((1 + 0x04 + 0x02 + 0x38 + 2) % 256)] :=
  (createReadCommand_spec 1 0x38 2 (by decide) (by decide) (by decide)).1

/-- Claim C4: header validation fails with the invalid-marker error when the
first two bytes are not `0xFF, 0xFF`; otherwise with the mismatched-id error
when byte 2 differs from the requested id; otherwise with the invalid-length
error when byte 3 is below 4; succeeds otherwise; and every failure message
carries all four raw header bytes rendered in hexadecimal. -/
theorem validateHeader_spec (id h0 h1 h2 h3 : Nat) :
    (¬(h0 = 0xFF ∧ h1 = 0xFF) →
      validateHeader id h0 h1 h2 h3 =
        some (headerErrorMsg "Invalid header markers" h0 h1 h2 h3)) ∧
    (h0 = 0xFF → h1 = 0xFF → h2 ≠ id →
      validateHeader id h0 h1 h2 h3 =
        some (headerErrorMsg "Mismatched servo ID" h0 h1 h2 h3)) ∧
    (h0 = 0xFF → h1 = 0xFF → h2 = id → h3 < 4 →
      validateHeader id h0 h1 h2 h3 =
        some (headerErrorMsg "Invalid length" h0 h1 h2 h3)) ∧
    (h0 = 0xFF → h1 = 0xFF → h2 = id → 4 ≤ h3 →
      validateHeader id h0 h1 h2 h3 = none) ∧
    (∀ e, validateHeader id h0 h1 h2 h3 = some e →
      ∀ b ∈ [h0, h1, h2, h3], (hexByte b).data <:+: e.data) := by
  refine ⟨?_, ?_, ?_, ?_, ?_⟩
  · intro h
    unfold validateHeader
    rw [if_pos (by tauto)]
  · intro e0 e1 hne
    unfold validateHeader
    rw [if_neg (by simp [e0, e1]), if_pos hne]
  · intro e0 e1 e2 hlt
    unfold validateHeader
    rw [if_neg (by simp [e0, e1]), if_neg (by simp [e2]), if_pos hlt]
  · intro e0 e1 e2 hge
    unfold validateHeader
    rw [if_neg (by simp [e0, e1]), if_neg (by simp [e2]), if_neg (by omega)]
  · intro e he
    unfold validateHeader at he
    split_ifs at he with c1 c2 c3
    · simp only [Option.some.injEq] at he
      subst he
      exact hex_in_headerErrorMsg _ _ _ _ _
    · simp only [Option.some.injEq] at he
      subst he
      exact hex_in_headerErrorMsg _ _ _ _ _
    · simp only [Option.some.injEq] at he
      subst he
      exact hex_in_headerErrorMsg _ _ _ _ _

/-- Witness for C4: a header with a bad first marker is rejected with the
invalid-marker message, and the well-formed header `FF FF 01 04` for servo 1
passes validation. -/
theorem validateHeader_spec_witness :
    validateHeader 1 0 0xFF 1 4 =
      some (headerErrorMsg "Invalid header markers" 0 0xFF 1 4) ∧
    validateHeader 1 0xFF 0xFF 1 4 = none :=
  ⟨(validateHeader_spec 1 0 0xFF 1 4).1 (by decide),
   (validateHeader_spec 1 0xFF 0xFF 1 4).2.2.2.1 rfl rfl rfl (by decide)⟩

set_option maxRecDepth 8192 in
/-- Claim C5: a payload with nonzero status byte makes the decoder fail with
the servo-fault message and extracts no position; the message is the fixed
prefix followed by the names of exactly the set flags in the fixed bit order
of `flagTable`; and for status `0x05` the message is exactly
`"Servo errors: Input Voltage Overheating"`, containing a flag's name iff the
flag is Input Voltage (0x01) or Overheating (0x04). -/
theorem decodePayload_fault_spec :
    (∀ data : List Nat, data.getD 0 0 ≠ 0 →
      decodePayload data = .error (servoFaultMsg (data.getD 0 0))) ∧
    (∀ s : Nat, s < 256 → servoFaultMsg s = servoFaultMsgSpec s) ∧
    servoFaultMsg 0x05 = "Servo errors: Input Voltage Overheating" ∧
    (∀ p ∈ flagTable,
      (p.2.data <:+: (servoFaultMsg 0x05).data ↔ p.1 = 0x01 ∨ p.1 = 0x04)) := by
  refine ⟨?_, ?_, by decide, by decide⟩
  · intro data h
    simp only [decodePayload]
    rw [if_pos h]
  · decide

/-- Witness for C5: payload `[0x05, …]` ends in the fault for status `0x05`
(Input Voltage | Overheating), whose message is exactly the two flag names. -/
theorem decodePayload_fault_spec_witness :
    decodePayload [0x05, 0x34, 0x12, 0] = .error (servoFaultMsg 0x05) ∧
    servoFaultMsg 0x05 = "Servo errors: Input Voltage Overheating" :=
  ⟨decodePayload_fault_spec.1 [0x05, 0x34, 0x12, 0] (by decide),
   decodePayload_fault_spec.2.2.1⟩

/-- Claim C6: a payload with status byte zero decodes to the position
`data[1] ||| (data[2] <<< 8)`, assembled little-endian; and for a low byte
below 256 that value is exactly `data[1] + 256 * data[2]` — the full 16-bit
wire value, with no clamping to 0–4095. -/
theorem decodePayload_position_spec :
    (∀ data : List Nat, data.getD 0 0 = 0 →
      decodePayload data = .ok ((data.getD 1 0) ||| ((data.getD 2 0) <<< 8))) ∧
    (∀ d1 d2 : Nat, d1 < 256 → d1 ||| (d2 <<< 8) = d1 + 256 * d2) := by
  refine ⟨?_, byte_lor_shiftLeft⟩
  intro data h
  simp only [decodePayload]
  rw [if_neg (fun hc => hc h)]

/-- Witness for C6: payload `[0x00, 0xFF, 0xFF, …]` decodes to position 65535,
outside the nominal 0–4095 range, preserved unmodified. -/
theorem decodePayload_position_spec_witness :
    decodePayload [0, 0xFF, 0xFF, 0] = .ok 65535 ∧ 4095 < 65535 :=
  ⟨(decodePayload_position_spec.1 [0, 0xFF, 0xFF, 0] rfl).trans (by decide),
   by decide⟩

/-- Claim C7: every failing `readPosition` invocation, whatever the phase the
failure arose in, returns an error whose message is the requested servo id's
wrapper around the underlying cause's message. -/
theorem readPosition_wraps_errors (servo_id : Nat) (w : Wire) (msg : String)
    (h : readPositionModel servo_id w = .error msg) :
    ∃ inner, readPositionInner servo_id w = .error inner ∧
      msg = "Error reading servo " ++ toString servo_id ++ ": " ++ inner := by
  unfold readPositionModel at h
  cases hi : readPositionInner servo_id w with
  | error e =>
    refine ⟨e, rfl, ?_⟩
    rw [hi] at h
    simp only [Except.error.injEq] at h
    exact h.symm
  | ok v =>
    rw [hi] at h
    exact absurd h (by simp)

/-- Witness for C7: a failed write for servo 5 surfaces as the wrapped message
`"Error reading servo 5: Write error: boom"`. -/
theorem readPosition_wraps_errors_witness :
    ∃ inner, readPositionInner 5 ⟨some "boom", 0, []⟩ = .error inner ∧
      "Error reading servo 5: Write error: boom" =
        "Error reading servo " ++ toString 5 ++ ": " ++ inner :=
  readPosition_wraps_errors 5 ⟨some "boom", 0, []⟩
    "Error reading servo 5: Write error: boom" (by rfl)

/-- Claim C9: if the transport accepts fewer than the 8 bytes of the request
frame (with no transport error code), the call fails with the
incomplete-write error — whatever bytes the device would have supplied, so the
read phases are never entered; there is no retry. -/
theorem shortWrite_fails (servo_id : Nat) (resp : List Nat) (written : Nat)
    (h : written < 8) :
    readPositionModel servo_id ⟨none, written, resp⟩ =
      .error (wrapErr servo_id "Failed to write complete command") := by
  have hlen : (createReadCommand servo_id 0x38 2).length = 8 := rfl
  unfold readPositionModel readPositionInner
  simp only [hlen]
  rw [if_pos (show written ≠ 8 by omega)]

/-- Witness for C9: a 7-of-8-byte write for servo 3 fails with the wrapped
incomplete-write error even though a full well-formed response was available. -/
theorem shortWrite_fails_witness :
    readPositionModel 3 ⟨none, 7, [0xFF, 0xFF, 3, 4, 0, 0x34, 0x12, 0xB4]⟩ =
      .error (wrapErr 3 "Failed to write complete command") :=
  shortWrite_fails 3 [0xFF, 0xFF, 3, 4, 0, 0x34, 0x12, 0xB4] 7 (by decide)

/-- Claim C2 (counterexample): `readPosition` accepts a response whose checksum
byte (0x00) differs from the ones-complement checksum of its bytes from the id
byte through the byte preceding the checksum (0xB4), and returns a position
instead of rejecting it: the code never verifies the response checksum. -/
theorem response_checksum_not_verified_cx :
    readPositionModel 1 ⟨none, 8, [0xFF, 0xFF, 1, 4, 0x00, 0x34, 0x12, 0x00]⟩ =
      .ok 0x1234 ∧
    responseChecksum [0xFF, 0xFF, 1, 4, 0x00, 0x34, 0x12, 0x00] = 0xB4 ∧
    (0xB4 : Nat) ≠ 0x00 := by
  refine ⟨by decide, by decide, by decide⟩

/-- Claim C2 (amended): `readPosition` performs no checksum verification on
responses — a response with valid header and zero status yields the decoded
position whatever its checksum byte `c` is. -/
theorem response_checksum_ignored (servo_id d1 d2 c : Nat) :
    readPositionModel servo_id ⟨none, 8, [0xFF, 0xFF, servo_id, 4, 0x00, d1, d2, c]⟩ =
      .ok (d1 ||| (d2 <<< 8)) := by
  simp [readPositionModel, readPositionInner, readExactM, validateHeader,
    decodePayload, createReadCommand]

/-- Claim C10: a payload whose status byte is `0x80` (only the unnamed eighth
bit set) still makes `readPosition` fail — the status is nonzero — but the
fault message is the bare prefix `"Servo errors:"` with an empty flag list:
no flag name appears in it, and no position is returned. -/
theorem status80_bare_fault (servo_id d1 d2 c : Nat) :
    readPositionModel servo_id ⟨none, 8, [0xFF, 0xFF, servo_id, 4, 0x80, d1, d2, c]⟩ =
      .error (wrapErr servo_id (servoFaultMsg 0x80)) ∧
    servoFaultMsg 0x80 = "Servo errors:" ∧
    (∀ p ∈ flagTable, ¬(p.2.data <:+: (servoFaultMsg 0x80).data)) := by
  refine ⟨?_, by decide, by decide⟩
  simp [readPositionModel, readPositionInner, readExactM, validateHeader,
    decodePayload, createReadCommand]

/-- Witness for C10: for servo 1 and status byte `0x80` the call fails with the
bare fault message, and in particular no Input Voltage flag is named. -/
theorem status80_bare_fault_witness :
    readPositionModel 1 ⟨none, 8, [0xFF, 0xFF, 1, 4, 0x80, 0, 0, 0]⟩ =
      .error (wrapErr 1 (servoFaultMsg 0x80)) ∧
    ¬(("Input Voltage" : String).data <:+: (servoFaultMsg 0x80).data) :=
  ⟨(status80_bare_fault 1 0 0 0).1,
   (status80_bare_fault 1 0 0 0).2.2 (0x01, "Input Voltage") (by decide)⟩

end ST3215
